import Mathlib

/-!
Verification of the USB/IP server library (src/lib.rs, src/host.rs).

The wire protocol handler (`handler` in src/lib.rs) is embedded as a step
function `step` over the connection's input byte stream, iterated by `run`.
Bytes are naturals; multi-byte protocol fields are big-endian, mirroring
the tokio `read_u32`/`write_u32` calls of the source.  Components of the
crate that are not part of the provided sources (device.rs, endpoint.rs,
consts.rs, setup.rs) are modelled from the specification and marked as such.
-/

namespace UsbIp

/-- Big-endian value of a 4-byte list, as read by tokio read_u32. -/
def be32 (b : List Nat) : Nat :=
  match b with
  | [b0, b1, b2, b3] => ((b0 * 256 + b1) * 256 + b2) * 256 + b3
  | _ => 0

/-- Bytes written by tokio write_u32: big-endian, value taken mod 2^32
    (the source always passes a u32, casts such as resp.len() as u32 wrap). -/
def writeU32 (n : Nat) : List Nat :=
  [n / 2 ^ 24 % 256, n / 2 ^ 16 % 256, n / 2 ^ 8 % 256, n % 256]

/-- Reading exactly n bytes from the stream (read_exact); none is the
    premature-EOF failure, which makes the handler return Err. -/
def readBytes (n : Nat) (input : List Nat) : Option (List Nat × List Nat) :=
  if n ≤ input.length then some (input.take n, input.drop n) else none

/-- Reading one big-endian u32 (read_u32). -/
def readU32 (input : List Nat) : Option (Nat × List Nat) :=
  match readBytes 4 input with
  | some (b, rest) => some (be32 b, rest)
  | none => none

theorem be32_writeU32 (n : Nat) : be32 (writeU32 n) = n % 2 ^ 32 := by
  simp only [be32, writeU32]
  omega

theorem writeU32_length (n : Nat) : (writeU32 n).length = 4 := rfl

theorem readBytes_append {n : Nat} {b : List Nat} (t : List Nat)
    (h : b.length = n) : readBytes n (b ++ t) = some (b, t) := by
  simp [readBytes, List.length_append, h, List.take_left' h, List.drop_left' h]

theorem readU32_append {b : List Nat} (t : List Nat) (h : b.length = 4) :
    readU32 (b ++ t) = some (be32 b, t) := by
  simp [readU32, readBytes_append t h]

theorem readU32_writeU32 (n : Nat) (t : List Nat) (h : n < 2 ^ 32) :
    readU32 (writeU32 n ++ t) = some (n, t) := by
  rw [readU32_append t (writeU32_length n), be32_writeU32, Nat.mod_eq_of_lt h]

theorem readBytes_eq_some {n : Nat} {input b r : List Nat}
    (h : readBytes n input = some (b, r)) :
    b = input.take n ∧ r = input.drop n ∧ n ≤ input.length := by
  by_cases hn : n ≤ input.length
  · simp [readBytes, hn] at h
    exact ⟨h.1.symm, h.2.symm, hn⟩
  · simp [readBytes, hn] at h

theorem readU32_eq_some {input : List Nat} {v : Nat} {r : List Nat}
    (h : readU32 input = some (v, r)) :
    r = input.drop 4 ∧ 4 ≤ input.length := by
  unfold readU32 at h
  cases hb : readBytes 4 input with
  | none => rw [hb] at h; exact absurd h (by simp)
  | some p =>
      obtain ⟨b, r0⟩ := p
      rw [hb] at h
      obtain ⟨h1, h2, h3⟩ := readBytes_eq_some hb
      simp at h
      exact ⟨h.2 ▸ h2, h3⟩

/-- Transfer direction of an endpoint (modelled from the spec §3: bit 7 of
    the endpoint address, 1 = IN, 0 = OUT; endpoint.rs is not in src/). -/
inductive Direction where
  | In : Direction
  | Out : Direction
deriving DecidableEq

/-- Endpoint transfer attribute codes (modelled from the spec §3:
    control=0, isochronous=1, bulk=2, interrupt=3; consts.rs is not in src/). -/
def EndpointAttributes.Control : Nat := 0

def EndpointAttributes.Isochronous : Nat := 1

def EndpointAttributes.Bulk : Nat := 2

def EndpointAttributes.Interrupt : Nat := 3

/-- Modelled from the spec §3 (endpoint.rs is not in src/): a USB endpoint
    with its 8-bit address, attributes, max packet size and interval. -/
structure UsbEndpoint where
  address : Nat
  attributes : Nat
  max_packet_size : Nat
  interval : Nat
deriving DecidableEq

/-- Modelled from the spec §3: direction is bit 7 of the address. -/
def UsbEndpoint.direction (ep : UsbEndpoint) : Direction :=
  if ep.address / 128 % 2 = 1 then Direction.In else Direction.Out

/-- Modelled from the spec §4.2 (setup.rs is not in src/): the decoded 8-byte
    SETUP packet fields used by the host pass-through handler. -/
structure SetupPacket where
  request_type : Nat
  request : Nat
  value : Nat
  index : Nat
  length : Nat
deriving DecidableEq

/-- Modelled from the spec §3 (interface.rs is not in src/): a USB interface
    with its class triple and endpoint list. -/
structure UsbInterface where
  interfaceClass : Nat
  interfaceSubclass : Nat
  interfaceProtocol : Nat
  endpoints : List UsbEndpoint
deriving DecidableEq

/-- Modelled from the spec §3 and §6 (device.rs is not in src/): a USB device.
    `devRecord` carries the 312-byte §6 device record written by write_dev,
    whose exact synthesis is out of the provided sources and kept opaque.
    `dispatch` is the §4.5 URB dispatch function of the device: endpoint,
    owning interface, transfer length, setup bytes, OUT payload to response
    bytes; it abstracts UsbDevice::handle_urb's routing. -/
structure UsbDevice where
  path : List Nat
  bus_id : List Nat
  ep0_max_packet_size : Nat
  interfaces : List UsbInterface
  devRecord : List Nat
  dispatch : UsbEndpoint → Option UsbInterface → Nat → List Nat → List Nat → List Nat

/-- Vec::resize(32, 0) applied to the bus_id bytes in OP_REQ_IMPORT handling:
    zero-pad to 32 bytes (truncating when longer). -/
def resize32 (l : List Nat) : List Nat :=
  (l ++ List.replicate 32 0).take 32

/-- Modelled from the spec §6: write_dev (device.rs, not in src/) writes the
    312-byte device record, carried here as the opaque devRecord field. -/
def UsbDevice.write_dev (dev : UsbDevice) : List Nat :=
  dev.devRecord

/-- Modelled from the spec §6: write_dev_with_interfaces (device.rs, not in
    src/) writes the device record followed by one 4-byte interface record
    (class, subclass, protocol, padding 0) per interface. -/
def UsbDevice.write_dev_with_interfaces (dev : UsbDevice) : List Nat :=
  dev.devRecord ++
    dev.interfaces.flatMap
      (fun i => [i.interfaceClass % 256, i.interfaceSubclass % 256,
                 i.interfaceProtocol % 256, 0])

/-- Modelled from the spec §4.4 (device.rs, not in src/): find_ep returns the
    endpoint and owning interface for an 8-bit address; endpoint 0 in either
    direction is synthesized implicitly with no associated interface;
    otherwise a linear scan across all interfaces; none when absent. -/
def UsbDevice.find_ep (dev : UsbDevice) (addr : Nat) :
    Option (UsbEndpoint × Option UsbInterface) :=
  if addr % 128 = 0 then
    some ({ address := addr, attributes := EndpointAttributes.Control,
            max_packet_size := dev.ep0_max_packet_size, interval := 0 }, none)
  else
    dev.interfaces.findSome? fun intf =>
      (intf.endpoints.find? fun e => e.address == addr).map fun e => (e, some intf)

/-- Modelled from the spec §4.5 (device.rs, not in src/): UsbDevice::handle_urb
    routes the submitted URB and returns the response bytes.  In the source it
    also reads the transfer_buffer_length-byte OUT payload from the socket when
    the direction is OUT (§6); the embedding performs that read in `step` and
    passes the payload here. -/
def UsbDevice.handle_urb (dev : UsbDevice) (ep : UsbEndpoint)
    (intf : Option UsbInterface) (transfer_buffer_length : Nat)
    (setup payload : List Nat) : List Nat :=
  dev.dispatch ep intf transfer_buffer_length setup payload

/-- Modelled from usage in src/host.rs: the rusb DeviceHandle of the physical
    device, abstracted as the outcomes of its six transfer calls.  A read field
    returns the bytes the call places into the caller's 1024-byte buffer
    (none for Err); rusb never reports more bytes than the buffer holds, which
    theorems state as an explicit bound.  Write outcomes are Bool since the
    source discards them with .ok(). -/
structure DeviceHandle where
  read_control : SetupPacket → Option (List Nat)
  write_control : SetupPacket → List Nat → Bool
  read_interrupt : Nat → Option (List Nat)
  write_interrupt : Nat → List Nat → Bool
  read_bulk : Nat → Option (List Nat)
  write_bulk : Nat → List Nat → Bool

/-- UsbHostHandler::handle_urb of src/host.rs: pass an URB through to the
    physical device.  Control, interrupt and bulk transfers in the IN
    direction return the bytes read on success; every other case, including
    failed reads, ignored write failures and unsupported attributes, falls
    through to Ok of the empty vector. -/
def UsbHostHandler.handle_urb (handle : DeviceHandle) (_interface : UsbInterface)
    (ep : UsbEndpoint) (setup : SetupPacket) (req : List Nat) :
    Except Unit (List Nat) :=
  if ep.attributes = EndpointAttributes.Control then
    match ep.direction with
    | Direction.In =>
      match handle.read_control setup with
      | some data => Except.ok data
      | none => Except.ok []
    | Direction.Out =>
      let _ := handle.write_control setup req
      Except.ok []
  else if ep.attributes = EndpointAttributes.Interrupt then
    match ep.direction with
    | Direction.In =>
      match handle.read_interrupt ep.address with
      | some data => Except.ok data
      | none => Except.ok []
    | Direction.Out =>
      let _ := handle.write_interrupt ep.address req
      Except.ok []
  else if ep.attributes = EndpointAttributes.Bulk then
    match ep.direction with
    | Direction.In =>
      match handle.read_bulk ep.address with
      | some data => Except.ok data
      | none => Except.ok []
    | Direction.Out =>
      let _ := handle.write_bulk ep.address req
      Except.ok []
  else
    Except.ok []

/-- Result of one iteration of the handler loop of src/lib.rs:
    `cont` continues the loop with the new current_import_device, the
    remaining input and the bytes written during the iteration; `fail` is an
    Err return from a read (EOF), after which the connection closes; `crash`
    is a panic of an unwrap on None, which kills the connection task. -/
inductive StepResult where
  | cont (st : Option UsbDevice) (rest : List Nat) (out : List Nat) : StepResult
  | fail (out : List Nat) : StepResult
  | crash (out : List Nat) : StepResult

/-- How a finished connection ended: the handler returned (Err on EOF) or its
    task panicked; either way the connection is closed. -/
inductive EndKind where
  | closed : EndKind
  | crashed : EndKind
deriving DecidableEq

/-- The USBIP_RET_SUBMIT bytes written at lib.rs lines 107-127: command 3,
    echoed seq_num, dev_id, direction and ep, status 0, actual length
    resp.len() as u32, start frame 0, number of packets 0, error count 0,
    the 8 echoed setup bytes, then the response data. -/
def retSubmitReply (seq_num dev_id direction ep : Nat)
    (setup resp : List Nat) : List Nat :=
  writeU32 0x3 ++ writeU32 seq_num ++ writeU32 dev_id ++ writeU32 direction ++
    writeU32 ep ++ writeU32 0 ++ writeU32 resp.length ++ writeU32 0 ++
    writeU32 0 ++ writeU32 0 ++ setup ++ resp

/-- The nine sequential read_u32 calls and the 8-byte setup read_exact of the
    USBIP_CMD_SUBMIT arm (lib.rs lines 86-96), in source order: seq_num,
    dev_id, direction, ep, transfer_flags, transfer_buffer_length,
    start_frame, number_of_packets, interval, then setup. -/
def parseSubmitHeader (input : List Nat) :
    Option ((Nat × Nat × Nat × Nat × Nat × Nat × Nat × Nat × Nat) ×
      List Nat × List Nat) :=
  match readU32 input with
  | none => none
  | some (seq_num, r1) =>
  match readU32 r1 with
  | none => none
  | some (dev_id, r2) =>
  match readU32 r2 with
  | none => none
  | some (direction, r3) =>
  match readU32 r3 with
  | none => none
  | some (ep, r4) =>
  match readU32 r4 with
  | none => none
  | some (transfer_flags, r5) =>
  match readU32 r5 with
  | none => none
  | some (transfer_buffer_length, r6) =>
  match readU32 r6 with
  | none => none
  | some (start_frame, r7) =>
  match readU32 r7 with
  | none => none
  | some (number_of_packets, r8) =>
  match readU32 r8 with
  | none => none
  | some (interval, r9) =>
  match readBytes 8 r9 with
  | none => none
  | some (setup, r10) =>
    some ((seq_num, dev_id, direction, ep, transfer_flags,
      transfer_buffer_length, start_frame, number_of_packets, interval),
      setup, r10)

/-- One iteration of the handler loop of src/lib.rs (lines 41-134): read a
    4-byte command, dispatch on it, and either continue the loop or end the
    connection.  Devices and the loop-local current_import_device mirror the
    source; reads that hit EOF map to fail, unwrap-on-None panics to crash. -/
def step (devices : List UsbDevice) (st : Option UsbDevice) (input : List Nat) :
    StepResult :=
  match readBytes 4 input with
  | none => StepResult.fail []
  | some (command, r0) =>
    if command = [0x01, 0x11, 0x80, 0x05] then
      -- OP_REQ_DEVLIST
      match readU32 r0 with
      | none => StepResult.fail []
      | some (_status, r1) =>
        StepResult.cont st r1
          (writeU32 0x01110005 ++ writeU32 0 ++ writeU32 devices.length ++
            (devices.flatMap UsbDevice.write_dev_with_interfaces))
    else if command = [0x01, 0x11, 0x80, 0x03] then
      -- OP_REQ_IMPORT
      match readU32 r0 with
      | none => StepResult.fail []
      | some (_status, r1) =>
        match readBytes 32 r1 with
        | none => StepResult.fail []
        | some (bus_id, r2) =>
          let found := devices.find? fun d => resize32 d.bus_id == bus_id
          StepResult.cont found r2
            (writeU32 0x01110003 ++
              match found with
              | some dev => writeU32 0 ++ dev.write_dev
              | none => writeU32 1)
    else if command = [0x00, 0x00, 0x00, 0x01] then
      -- USBIP_CMD_SUBMIT
      match parseSubmitHeader r0 with
      | none => StepResult.fail []
      | some ((seq_num, dev_id, direction, ep, _transfer_flags,
          transfer_buffer_length, _start_frame, _number_of_packets,
          _interval), setup, r10) =>
        match st with
        | none => StepResult.crash []
        | some device =>
          let real_ep := if direction = 0 then ep else ep ||| 0x80
          match device.find_ep (real_ep % 256) with
          | none => StepResult.crash []
          | some (usb_ep, intf) =>
            if direction = 0 then
              match readBytes transfer_buffer_length r10 with
              | none => StepResult.fail []
              | some (payload, r11) =>
                let resp := device.handle_urb usb_ep intf
                  transfer_buffer_length setup payload
                StepResult.cont st r11
                  (retSubmitReply seq_num dev_id direction ep setup resp)
            else
              let resp := device.handle_urb usb_ep intf
                transfer_buffer_length setup []
              StepResult.cont st r10
                (retSubmitReply seq_num dev_id direction ep setup resp)
    else if command = [0x00, 0x00, 0x00, 0x02] then
      -- USBIP_CMD_UNLINK: only logged, nothing further read or written
      StepResult.cont st r0 []
    else
      -- unknown command: only logged, the loop continues
      StepResult.cont st r0 []

theorem parseSubmitHeader_eq_some {input : List Nat}
    {flds : Nat × Nat × Nat × Nat × Nat × Nat × Nat × Nat × Nat}
    {setup rest : List Nat}
    (h : parseSubmitHeader input = some (flds, setup, rest)) :
    setup = (input.drop 36).take 8 ∧ rest = input.drop 44 ∧
      44 ≤ input.length := by
  unfold parseSubmitHeader at h
  cases h1 : readU32 input with
  | none => rw [h1] at h; dsimp only at h; exact Option.noConfusion h
  | some p1 =>
  obtain ⟨v1, r1⟩ := p1
  rw [h1] at h
  dsimp only at h
  obtain ⟨hr1, hl1⟩ := readU32_eq_some h1
  cases h2 : readU32 r1 with
  | none => rw [h2] at h; dsimp only at h; exact Option.noConfusion h
  | some p2 =>
  obtain ⟨v2, r2⟩ := p2
  rw [h2] at h
  dsimp only at h
  obtain ⟨hr2, hl2⟩ := readU32_eq_some h2
  cases h3 : readU32 r2 with
  | none => rw [h3] at h; dsimp only at h; exact Option.noConfusion h
  | some p3 =>
  obtain ⟨v3, r3⟩ := p3
  rw [h3] at h
  dsimp only at h
  obtain ⟨hr3, hl3⟩ := readU32_eq_some h3
  cases h4 : readU32 r3 with
  | none => rw [h4] at h; dsimp only at h; exact Option.noConfusion h
  | some p4 =>
  obtain ⟨v4, r4⟩ := p4
  rw [h4] at h
  dsimp only at h
  obtain ⟨hr4, hl4⟩ := readU32_eq_some h4
  cases h5 : readU32 r4 with
  | none => rw [h5] at h; dsimp only at h; exact Option.noConfusion h
  | some p5 =>
  obtain ⟨v5, r5⟩ := p5
  rw [h5] at h
  dsimp only at h
  obtain ⟨hr5, hl5⟩ := readU32_eq_some h5
  cases h6 : readU32 r5 with
  | none => rw [h6] at h; dsimp only at h; exact Option.noConfusion h
  | some p6 =>
  obtain ⟨v6, r6⟩ := p6
  rw [h6] at h
  dsimp only at h
  obtain ⟨hr6, hl6⟩ := readU32_eq_some h6
  cases h7 : readU32 r6 with
  | none => rw [h7] at h; dsimp only at h; exact Option.noConfusion h
  | some p7 =>
  obtain ⟨v7, r7⟩ := p7
  rw [h7] at h
  dsimp only at h
  obtain ⟨hr7, hl7⟩ := readU32_eq_some h7
  cases h8 : readU32 r7 with
  | none => rw [h8] at h; dsimp only at h; exact Option.noConfusion h
  | some p8 =>
  obtain ⟨v8, r8⟩ := p8
  rw [h8] at h
  dsimp only at h
  obtain ⟨hr8, hl8⟩ := readU32_eq_some h8
  cases h9 : readU32 r8 with
  | none => rw [h9] at h; dsimp only at h; exact Option.noConfusion h
  | some p9 =>
  obtain ⟨v9, r9⟩ := p9
  rw [h9] at h
  dsimp only at h
  obtain ⟨hr9, hl9⟩ := readU32_eq_some h9
  cases h10 : readBytes 8 r9 with
  | none => rw [h10] at h; dsimp only at h; exact Option.noConfusion h
  | some p10 =>
  obtain ⟨su, r10⟩ := p10
  rw [h10] at h
  dsimp only at h
  obtain ⟨hsu, hr10, hl10⟩ := readBytes_eq_some h10
  simp only [Option.some.injEq, Prod.mk.injEq] at h
  subst hr1 hr2 hr3 hr4 hr5 hr6 hr7 hr8 hr9
  obtain ⟨-, hset, hrest⟩ := h
  subst hset hrest
  simp only [List.drop_drop, List.length_drop] at hsu hr10 hl10 hl9 hl8 hl7 hl6 hl5 hl4 hl3 hl2 ⊢
  refine ⟨by simpa using hsu, by simpa using hr10, by omega⟩

theorem step_cont_shrink {devices : List UsbDevice} {st st' : Option UsbDevice}
    {input rest out : List Nat}
    (h : step devices st input = StepResult.cont st' rest out) :
    rest.length < input.length := by
  unfold step at h
  cases hc : readBytes 4 input with
  | none => rw [hc] at h; dsimp only at h; exact StepResult.noConfusion h
  | some p =>
  obtain ⟨command, r0⟩ := p
  rw [hc] at h
  dsimp only at h
  obtain ⟨-, hr0, hl0⟩ := readBytes_eq_some hc
  subst hr0
  by_cases c1 : command = [0x01, 0x11, 0x80, 0x05]
  · rw [if_pos c1] at h
    cases hu : readU32 (input.drop 4) with
    | none => rw [hu] at h; dsimp only at h; exact StepResult.noConfusion h
    | some p =>
      obtain ⟨v, r1⟩ := p
      rw [hu] at h
      dsimp only at h
      obtain ⟨hr1, hl1⟩ := readU32_eq_some hu
      injection h with h1 h2 h3
      subst h2 hr1
      simp only [List.length_drop] at *
      omega
  · rw [if_neg c1] at h
    by_cases c2 : command = [0x01, 0x11, 0x80, 0x03]
    · rw [if_pos c2] at h
      cases hu : readU32 (input.drop 4) with
      | none => rw [hu] at h; dsimp only at h; exact StepResult.noConfusion h
      | some p =>
        obtain ⟨v, r1⟩ := p
        rw [hu] at h
        dsimp only at h
        obtain ⟨hr1, hl1⟩ := readU32_eq_some hu
        cases hb : readBytes 32 r1 with
        | none => rw [hb] at h; dsimp only at h; exact StepResult.noConfusion h
        | some p =>
          obtain ⟨bus_id, r2⟩ := p
          rw [hb] at h
          dsimp only at h
          obtain ⟨-, hr2, hl2⟩ := readBytes_eq_some hb
          injection h with h1 h2 h3
          subst h2 hr2 hr1
          simp only [List.length_drop] at *
          omega
    · rw [if_neg c2] at h
      by_cases c3 : command = [0x00, 0x00, 0x00, 0x01]
      · rw [if_pos c3] at h
        cases hp : parseSubmitHeader (input.drop 4) with
        | none => rw [hp] at h; dsimp only at h; exact StepResult.noConfusion h
        | some p =>
          obtain ⟨⟨seq_num, dev_id, direction, ep, tf, tbl, sf, nop, itv⟩,
            su, r10⟩ := p
          rw [hp] at h
          dsimp only at h
          obtain ⟨-, hr10, hl10⟩ := parseSubmitHeader_eq_some hp
          cases st with
          | none => exact StepResult.noConfusion h
          | some device =>
            dsimp only at h
            cases hf : device.find_ep
                ((if direction = 0 then ep else ep ||| 0x80) % 256) with
            | none => rw [hf] at h; dsimp only at h; exact StepResult.noConfusion h
            | some q =>
              obtain ⟨usb_ep, intf⟩ := q
              rw [hf] at h
              dsimp only at h
              by_cases cd : direction = 0
              · rw [if_pos cd] at h
                cases hpl : readBytes tbl r10 with
                | none =>
                  rw [hpl] at h; dsimp only at h; exact StepResult.noConfusion h
                | some p =>
                  obtain ⟨payload, r11⟩ := p
                  rw [hpl] at h
                  dsimp only at h
                  obtain ⟨-, hr11, hl11⟩ := readBytes_eq_some hpl
                  injection h with h1 h2 h3
                  subst h2 hr11 hr10
                  simp only [List.length_drop] at *
                  omega
              · rw [if_neg cd] at h
                injection h with h1 h2 h3
                subst h2 hr10
                simp only [List.length_drop] at *
                omega
      · rw [if_neg c3] at h
        by_cases c4 : command = [0x00, 0x00, 0x00, 0x02]
        · rw [if_pos c4] at h
          injection h with h1 h2 h3
          subst h2
          simp only [List.length_drop]
          omega
        · rw [if_neg c4] at h
          injection h with h1 h2 h3
          subst h2
          simp only [List.length_drop]
          omega

/-- The handler loop of src/lib.rs, iterated until the connection ends:
    accumulates all bytes written to the socket and reports how the
    connection ended.  Corresponds to running handler on a socket whose
    readable bytes are exactly input. -/
def run (devices : List UsbDevice) (st : Option UsbDevice) (input : List Nat) :
    List Nat × EndKind :=
  match h : step devices st input with
  | StepResult.cont st' rest out =>
    have : rest.length < input.length := step_cont_shrink h
    (out ++ (run devices st' rest).1, (run devices st' rest).2)
  | StepResult.fail out => (out, EndKind.closed)
  | StepResult.crash out => (out, EndKind.crashed)
termination_by input.length

theorem run_cont {devices : List UsbDevice} {st st' : Option UsbDevice}
    {input rest out : List Nat}
    (h : step devices st input = StepResult.cont st' rest out) :
    run devices st input =
      (out ++ (run devices st' rest).1, (run devices st' rest).2) := by
  rw [run]
  split
  · rename_i st2 rest2 out2 heq
    rw [h] at heq
    injection heq with e1 e2 e3
    subst e1 e2 e3
    rfl
  · rename_i out2 heq
    rw [h] at heq
    exact StepResult.noConfusion heq
  · rename_i out2 heq
    rw [h] at heq
    exact StepResult.noConfusion heq

theorem run_fail {devices : List UsbDevice} {st : Option UsbDevice}
    {input out : List Nat}
    (h : step devices st input = StepResult.fail out) :
    run devices st input = (out, EndKind.closed) := by
  rw [run]
  split
  · rename_i st2 rest2 out2 heq
    rw [h] at heq
    exact StepResult.noConfusion heq
  · rename_i out2 heq
    rw [h] at heq
    injection heq with e1
    subst e1
    rfl
  · rename_i out2 heq
    rw [h] at heq
    exact StepResult.noConfusion heq

theorem run_crash {devices : List UsbDevice} {st : Option UsbDevice}
    {input out : List Nat}
    (h : step devices st input = StepResult.crash out) :
    run devices st input = (out, EndKind.crashed) := by
  rw [run]
  split
  · rename_i st2 rest2 out2 heq
    rw [h] at heq
    exact StepResult.noConfusion heq
  · rename_i out2 heq
    rw [h] at heq
    exact StepResult.noConfusion heq
  · rename_i out2 heq
    rw [h] at heq
    injection heq with e1
    subst e1
    rfl

theorem parseSubmitHeader_append
    (seq_num dev_id direction ep transfer_flags transfer_buffer_length
      start_frame number_of_packets interval : Nat) (setup t : List Nat)
    (hs : setup.length = 8)
    (b1 : seq_num < 2 ^ 32) (b2 : dev_id < 2 ^ 32) (b3 : direction < 2 ^ 32)
    (b4 : ep < 2 ^ 32) (b5 : transfer_flags < 2 ^ 32)
    (b6 : transfer_buffer_length < 2 ^ 32) (b7 : start_frame < 2 ^ 32)
    (b8 : number_of_packets < 2 ^ 32) (b9 : interval < 2 ^ 32) :
    parseSubmitHeader (writeU32 seq_num ++ writeU32 dev_id ++
      writeU32 direction ++ writeU32 ep ++ writeU32 transfer_flags ++
      writeU32 transfer_buffer_length ++ writeU32 start_frame ++
      writeU32 number_of_packets ++ writeU32 interval ++ setup ++ t) =
    some ((seq_num, dev_id, direction, ep, transfer_flags,
      transfer_buffer_length, start_frame, number_of_packets, interval),
      setup, t) := by
  simp only [parseSubmitHeader, List.append_assoc,
    readU32_writeU32 _ _ b1, readU32_writeU32 _ _ b2, readU32_writeU32 _ _ b3,
    readU32_writeU32 _ _ b4, readU32_writeU32 _ _ b5, readU32_writeU32 _ _ b6,
    readU32_writeU32 _ _ b7, readU32_writeU32 _ _ b8, readU32_writeU32 _ _ b9,
    readBytes_append t hs]

theorem step_devlist (devices : List UsbDevice) (st : Option UsbDevice)
    (s4 rest : List Nat) (h4 : s4.length = 4) :
    step devices st ([0x01, 0x11, 0x80, 0x05] ++ s4 ++ rest) =
      StepResult.cont st rest
        (writeU32 0x01110005 ++ writeU32 0 ++ writeU32 devices.length ++
          devices.flatMap UsbDevice.write_dev_with_interfaces) := by
  have e1 : readBytes 4 ([0x01, 0x11, 0x80, 0x05] ++ (s4 ++ rest)) =
      some ([0x01, 0x11, 0x80, 0x05], s4 ++ rest) := readBytes_append _ rfl
  have e2 : readU32 (s4 ++ rest) = some (be32 s4, rest) := readU32_append rest h4
  simp only [List.append_assoc]
  unfold step
  rw [e1]
  dsimp only
  rw [if_pos rfl, e2]
  dsimp only
  simp only [List.append_assoc]

theorem step_import (devices : List UsbDevice) (st : Option UsbDevice)
    (s4 bus_id rest : List Nat) (h4 : s4.length = 4) (h32 : bus_id.length = 32) :
    step devices st ([0x01, 0x11, 0x80, 0x03] ++ s4 ++ bus_id ++ rest) =
      StepResult.cont (devices.find? fun d => resize32 d.bus_id == bus_id) rest
        (writeU32 0x01110003 ++
          match devices.find? fun d => resize32 d.bus_id == bus_id with
          | some dev => writeU32 0 ++ dev.write_dev
          | none => writeU32 1) := by
  have e1 : readBytes 4 ([0x01, 0x11, 0x80, 0x03] ++ (s4 ++ bus_id ++ rest)) =
      some ([0x01, 0x11, 0x80, 0x03], s4 ++ bus_id ++ rest) :=
    readBytes_append _ rfl
  have e2 : readU32 (s4 ++ (bus_id ++ rest)) = some (be32 s4, bus_id ++ rest) :=
    readU32_append _ h4
  have e3 : readBytes 32 (bus_id ++ rest) = some (bus_id, rest) :=
    readBytes_append rest h32
  simp only [List.append_assoc] at e1 ⊢
  unfold step
  rw [e1]
  dsimp only
  rw [if_neg (by decide), if_pos rfl, e2]
  dsimp only
  rw [e3]

theorem step_other (devices : List UsbDevice) (st : Option UsbDevice)
    (cmd rest : List Nat) (h4 : cmd.length = 4)
    (n1 : cmd ≠ [0x01, 0x11, 0x80, 0x05]) (n2 : cmd ≠ [0x01, 0x11, 0x80, 0x03])
    (n3 : cmd ≠ [0x00, 0x00, 0x00, 0x01]) :
    step devices st (cmd ++ rest) = StepResult.cont st rest [] := by
  have e1 : readBytes 4 (cmd ++ rest) = some (cmd, rest) :=
    readBytes_append rest h4
  unfold step
  rw [e1]
  dsimp only
  rw [if_neg n1, if_neg n2, if_neg n3]
  split <;> rfl

theorem step_submit_in (devices : List UsbDevice) (dev : UsbDevice)
    (usb_ep : UsbEndpoint) (intf : Option UsbInterface)
    (seq_num dev_id direction ep transfer_flags transfer_buffer_length
      start_frame number_of_packets interval : Nat) (setup rest : List Nat)
    (hs : setup.length = 8)
    (b1 : seq_num < 2 ^ 32) (b2 : dev_id < 2 ^ 32) (b3 : direction < 2 ^ 32)
    (b4 : ep < 2 ^ 32) (b5 : transfer_flags < 2 ^ 32)
    (b6 : transfer_buffer_length < 2 ^ 32) (b7 : start_frame < 2 ^ 32)
    (b8 : number_of_packets < 2 ^ 32) (b9 : interval < 2 ^ 32)
    (hdir : direction ≠ 0)
    (hfind : dev.find_ep ((ep ||| 0x80) % 256) = some (usb_ep, intf)) :
    step devices (some dev)
      ([0x00, 0x00, 0x00, 0x01] ++ writeU32 seq_num ++ writeU32 dev_id ++
        writeU32 direction ++ writeU32 ep ++ writeU32 transfer_flags ++
        writeU32 transfer_buffer_length ++ writeU32 start_frame ++
        writeU32 number_of_packets ++ writeU32 interval ++ setup ++ rest) =
      StepResult.cont (some dev) rest
        (retSubmitReply seq_num dev_id direction ep setup
          (dev.handle_urb usb_ep intf transfer_buffer_length setup [])) := by
  have e1 : readBytes 4 ([0x00, 0x00, 0x00, 0x01] ++
      (writeU32 seq_num ++ writeU32 dev_id ++ writeU32 direction ++
        writeU32 ep ++ writeU32 transfer_flags ++
        writeU32 transfer_buffer_length ++ writeU32 start_frame ++
        writeU32 number_of_packets ++ writeU32 interval ++ setup ++ rest)) =
      some ([0x00, 0x00, 0x00, 0x01],
        writeU32 seq_num ++ writeU32 dev_id ++ writeU32 direction ++
        writeU32 ep ++ writeU32 transfer_flags ++
        writeU32 transfer_buffer_length ++ writeU32 start_frame ++
        writeU32 number_of_packets ++ writeU32 interval ++ setup ++ rest) :=
    readBytes_append _ rfl
  have e2 := parseSubmitHeader_append seq_num dev_id direction ep
    transfer_flags transfer_buffer_length start_frame number_of_packets
    interval setup rest hs b1 b2 b3 b4 b5 b6 b7 b8 b9
  simp only [List.append_assoc] at e1 e2 ⊢
  unfold step
  rw [e1]
  dsimp only
  rw [if_neg (by decide), if_neg (by decide), if_pos rfl, e2]
  dsimp only
  rw [if_neg hdir, hfind]
  dsimp only
  rw [if_neg hdir]

theorem step_submit_out (devices : List UsbDevice) (dev : UsbDevice)
    (usb_ep : UsbEndpoint) (intf : Option UsbInterface)
    (seq_num dev_id ep transfer_flags transfer_buffer_length
      start_frame number_of_packets interval : Nat)
    (setup payload rest : List Nat)
    (hs : setup.length = 8) (hp : payload.length = transfer_buffer_length)
    (b1 : seq_num < 2 ^ 32) (b2 : dev_id < 2 ^ 32)
    (b4 : ep < 2 ^ 32) (b5 : transfer_flags < 2 ^ 32)
    (b6 : transfer_buffer_length < 2 ^ 32) (b7 : start_frame < 2 ^ 32)
    (b8 : number_of_packets < 2 ^ 32) (b9 : interval < 2 ^ 32)
    (hfind : dev.find_ep (ep % 256) = some (usb_ep, intf)) :
    step devices (some dev)
      ([0x00, 0x00, 0x00, 0x01] ++ writeU32 seq_num ++ writeU32 dev_id ++
        writeU32 0 ++ writeU32 ep ++ writeU32 transfer_flags ++
        writeU32 transfer_buffer_length ++ writeU32 start_frame ++
        writeU32 number_of_packets ++ writeU32 interval ++ setup ++
        payload ++ rest) =
      StepResult.cont (some dev) rest
        (retSubmitReply seq_num dev_id 0 ep setup
          (dev.handle_urb usb_ep intf transfer_buffer_length setup
            payload)) := by
  have e1 : readBytes 4 ([0x00, 0x00, 0x00, 0x01] ++
      (writeU32 seq_num ++ writeU32 dev_id ++ writeU32 0 ++
        writeU32 ep ++ writeU32 transfer_flags ++
        writeU32 transfer_buffer_length ++ writeU32 start_frame ++
        writeU32 number_of_packets ++ writeU32 interval ++ setup ++
        payload ++ rest)) =
      some ([0x00, 0x00, 0x00, 0x01],
        writeU32 seq_num ++ writeU32 dev_id ++ writeU32 0 ++
        writeU32 ep ++ writeU32 transfer_flags ++
        writeU32 transfer_buffer_length ++ writeU32 start_frame ++
        writeU32 number_of_packets ++ writeU32 interval ++ setup ++
        payload ++ rest) :=
    readBytes_append _ rfl
  have e2 := parseSubmitHeader_append seq_num dev_id 0 ep
    transfer_flags transfer_buffer_length start_frame number_of_packets
    interval setup (payload ++ rest) hs b1 b2 (by norm_num) b4 b5 b6 b7 b8 b9
  have e3 : readBytes transfer_buffer_length (payload ++ rest) =
      some (payload, rest) := readBytes_append rest hp
  simp only [List.append_assoc] at e1 e2 ⊢
  unfold step
  rw [e1]
  dsimp only
  rw [if_neg (by decide), if_neg (by decide), if_pos rfl, e2]
  dsimp only
  rw [if_pos rfl, hfind]
  dsimp only
  rw [if_pos rfl, e3]

theorem step_submit_nofind (devices : List UsbDevice) (dev : UsbDevice)
    (seq_num dev_id direction ep transfer_flags transfer_buffer_length
      start_frame number_of_packets interval : Nat) (setup rest : List Nat)
    (hs : setup.length = 8)
    (b1 : seq_num < 2 ^ 32) (b2 : dev_id < 2 ^ 32) (b3 : direction < 2 ^ 32)
    (b4 : ep < 2 ^ 32) (b5 : transfer_flags < 2 ^ 32)
    (b6 : transfer_buffer_length < 2 ^ 32) (b7 : start_frame < 2 ^ 32)
    (b8 : number_of_packets < 2 ^ 32) (b9 : interval < 2 ^ 32)
    (hfind : dev.find_ep
      ((if direction = 0 then ep else ep ||| 0x80) % 256) = none) :
    step devices (some dev)
      ([0x00, 0x00, 0x00, 0x01] ++ writeU32 seq_num ++ writeU32 dev_id ++
        writeU32 direction ++ writeU32 ep ++ writeU32 transfer_flags ++
        writeU32 transfer_buffer_length ++ writeU32 start_frame ++
        writeU32 number_of_packets ++ writeU32 interval ++ setup ++ rest) =
      StepResult.crash [] := by
  have e1 : readBytes 4 ([0x00, 0x00, 0x00, 0x01] ++
      (writeU32 seq_num ++ writeU32 dev_id ++ writeU32 direction ++
        writeU32 ep ++ writeU32 transfer_flags ++
        writeU32 transfer_buffer_length ++ writeU32 start_frame ++
        writeU32 number_of_packets ++ writeU32 interval ++ setup ++ rest)) =
      some ([0x00, 0x00, 0x00, 0x01],
        writeU32 seq_num ++ writeU32 dev_id ++ writeU32 direction ++
        writeU32 ep ++ writeU32 transfer_flags ++
        writeU32 transfer_buffer_length ++ writeU32 start_frame ++
        writeU32 number_of_packets ++ writeU32 interval ++ setup ++ rest) :=
    readBytes_append _ rfl
  have e2 := parseSubmitHeader_append seq_num dev_id direction ep
    transfer_flags transfer_buffer_length start_frame number_of_packets
    interval setup rest hs b1 b2 b3 b4 b5 b6 b7 b8 b9
  simp only [List.append_assoc] at e1 e2 ⊢
  unfold step
  rw [e1]
  dsimp only
  rw [if_neg (by decide), if_neg (by decide), if_pos rfl, e2]
  dsimp only
  rw [hfind]

set_option maxHeartbeats 1000000 in
theorem retSubmitReply_parts (seq_num dev_id direction ep : Nat)
    (setup resp : List Nat) (hs : setup.length = 8) :
    (retSubmitReply seq_num dev_id direction ep setup resp).length =
        48 + resp.length ∧
    (retSubmitReply seq_num dev_id direction ep setup resp).take 4 =
        writeU32 0x3 ∧
    ((retSubmitReply seq_num dev_id direction ep setup resp).drop 4).take 4 =
        writeU32 seq_num ∧
    ((retSubmitReply seq_num dev_id direction ep setup resp).drop 8).take 4 =
        writeU32 dev_id ∧
    ((retSubmitReply seq_num dev_id direction ep setup resp).drop 12).take 4 =
        writeU32 direction ∧
    ((retSubmitReply seq_num dev_id direction ep setup resp).drop 16).take 4 =
        writeU32 ep ∧
    ((retSubmitReply seq_num dev_id direction ep setup resp).drop 20).take 4 =
        writeU32 0 ∧
    ((retSubmitReply seq_num dev_id direction ep setup resp).drop 24).take 4 =
        writeU32 resp.length ∧
    ((retSubmitReply seq_num dev_id direction ep setup resp).drop 28).take 4 =
        writeU32 0 ∧
    ((retSubmitReply seq_num dev_id direction ep setup resp).drop 32).take 4 =
        writeU32 0 ∧
    ((retSubmitReply seq_num dev_id direction ep setup resp).drop 36).take 4 =
        writeU32 0 ∧
    ((retSubmitReply seq_num dev_id direction ep setup resp).drop 40).take 8 =
        setup ∧
    (retSubmitReply seq_num dev_id direction ep setup resp).drop 48 = resp := by
  refine ⟨?_, rfl, rfl, rfl, rfl, rfl, rfl, rfl, rfl, rfl, rfl, ?_, ?_⟩
  · simp only [retSubmitReply, List.length_append, writeU32_length, hs]
  · have e : (retSubmitReply seq_num dev_id direction ep setup resp).drop 40 =
        setup ++ resp := rfl
    rw [e]
    exact List.take_left' hs
  · have e : (retSubmitReply seq_num dev_id direction ep setup resp).drop 48 =
        (setup ++ resp).drop 8 := rfl
    rw [e]
    exact List.drop_left' hs

/-- One USBIP_CMD_SUBMIT request as the remote sends it: the nine header
    fields, the 8 setup bytes, and the OUT payload (empty for IN). -/
structure SubmitReq where
  seq_num : Nat
  dev_id : Nat
  direction : Nat
  ep : Nat
  transfer_flags : Nat
  transfer_buffer_length : Nat
  start_frame : Nat
  number_of_packets : Nat
  interval : Nat
  setup : List Nat
  payload : List Nat

/-- Wire encoding of a USBIP_CMD_SUBMIT request. -/
def encodeSubmit (r : SubmitReq) : List Nat :=
  [0x00, 0x00, 0x00, 0x01] ++ writeU32 r.seq_num ++ writeU32 r.dev_id ++
    writeU32 r.direction ++ writeU32 r.ep ++ writeU32 r.transfer_flags ++
    writeU32 r.transfer_buffer_length ++ writeU32 r.start_frame ++
    writeU32 r.number_of_packets ++ writeU32 r.interval ++ r.setup ++
    r.payload

/-- Response bytes the dispatcher produces for a request on a device. -/
def respFor (dev : UsbDevice) (r : SubmitReq) : List Nat :=
  match dev.find_ep
      ((if r.direction = 0 then r.ep else r.ep ||| 0x80) % 256) with
  | some (usb_ep, intf) =>
      dev.handle_urb usb_ep intf r.transfer_buffer_length r.setup r.payload
  | none => []

/-- The USBIP_RET_SUBMIT reply the handler writes for a request. -/
def replyFor (dev : UsbDevice) (r : SubmitReq) : List Nat :=
  retSubmitReply r.seq_num r.dev_id r.direction r.ep r.setup (respFor dev r)

/-- Well-formedness of a request with respect to the imported device: fields
    fit in u32, the setup is 8 bytes, the payload matches
    transfer_buffer_length for OUT and is absent for IN, and the addressed
    endpoint exists on the device. -/
def ReqOk (dev : UsbDevice) (r : SubmitReq) : Prop :=
  r.setup.length = 8 ∧
  r.seq_num < 2 ^ 32 ∧ r.dev_id < 2 ^ 32 ∧ r.direction < 2 ^ 32 ∧
  r.ep < 2 ^ 32 ∧ r.transfer_flags < 2 ^ 32 ∧
  r.transfer_buffer_length < 2 ^ 32 ∧ r.start_frame < 2 ^ 32 ∧
  r.number_of_packets < 2 ^ 32 ∧ r.interval < 2 ^ 32 ∧
  (if r.direction = 0 then r.payload.length = r.transfer_buffer_length
   else r.payload = []) ∧
  (dev.find_ep
    ((if r.direction = 0 then r.ep else r.ep ||| 0x80) % 256)).isSome

theorem step_encodeSubmit (devices : List UsbDevice) (dev : UsbDevice)
    (r : SubmitReq) (rest : List Nat) (hok : ReqOk dev r) :
    step devices (some dev) (encodeSubmit r ++ rest) =
      StepResult.cont (some dev) rest (replyFor dev r) := by
  obtain ⟨hs, b1, b2, b3, b4, b5, b6, b7, b8, b9, hpl, hfind⟩ := hok
  obtain ⟨⟨usb_ep, intf⟩, hf⟩ := Option.isSome_iff_exists.mp hfind
  by_cases hd : r.direction = 0
  · have hf0 : dev.find_ep (r.ep % 256) = some (usb_ep, intf) := by
      rw [hd, if_pos rfl] at hf
      exact hf
    have hpl0 : r.payload.length = r.transfer_buffer_length := by
      rw [if_pos hd] at hpl
      exact hpl
    have enc : encodeSubmit r ++ rest =
        [0x00, 0x00, 0x00, 0x01] ++ writeU32 r.seq_num ++
        writeU32 r.dev_id ++ writeU32 0 ++ writeU32 r.ep ++
        writeU32 r.transfer_flags ++ writeU32 r.transfer_buffer_length ++
        writeU32 r.start_frame ++ writeU32 r.number_of_packets ++
        writeU32 r.interval ++ r.setup ++ r.payload ++ rest := by
      rw [encodeSubmit, hd]
    rw [enc, step_submit_out devices dev usb_ep intf r.seq_num r.dev_id r.ep
      r.transfer_flags r.transfer_buffer_length r.start_frame
      r.number_of_packets r.interval r.setup r.payload rest hs hpl0
      b1 b2 b4 b5 b6 b7 b8 b9 hf0]
    rw [replyFor, respFor, hf, hd]
  · have hf1 : dev.find_ep ((r.ep ||| 0x80) % 256) = some (usb_ep, intf) := by
      rw [if_neg hd] at hf
      exact hf
    have hpl1 : r.payload = [] := by
      rw [if_neg hd] at hpl
      exact hpl
    have enc : encodeSubmit r ++ rest =
        [0x00, 0x00, 0x00, 0x01] ++ writeU32 r.seq_num ++
        writeU32 r.dev_id ++ writeU32 r.direction ++ writeU32 r.ep ++
        writeU32 r.transfer_flags ++ writeU32 r.transfer_buffer_length ++
        writeU32 r.start_frame ++ writeU32 r.number_of_packets ++
        writeU32 r.interval ++ r.setup ++ rest := by
      rw [encodeSubmit, hpl1, List.append_nil]
    rw [enc, step_submit_in devices dev usb_ep intf r.seq_num r.dev_id
      r.direction r.ep r.transfer_flags r.transfer_buffer_length
      r.start_frame r.number_of_packets r.interval r.setup rest hs
      b1 b2 b3 b4 b5 b6 b7 b8 b9 hd hf1]
    rw [replyFor, respFor, if_neg hd, hf1, hpl1]

theorem run_submits (devices : List UsbDevice) (dev : UsbDevice)
    (reqs : List SubmitReq) (hok : ∀ r ∈ reqs, ReqOk dev r) :
    run devices (some dev) (reqs.flatMap encodeSubmit) =
      ((reqs.map (replyFor dev)).flatten, EndKind.closed) := by
  induction reqs with
  | nil =>
    simp only [List.flatMap_nil, List.map_nil, List.flatten_nil]
    exact run_fail rfl
  | cons r rs ih =>
    have hr : ReqOk dev r := hok r (by simp)
    have hrs : ∀ x ∈ rs, ReqOk dev x := fun x hx => hok x (by simp [hx])
    rw [List.flatMap_cons,
      run_cont (step_encodeSubmit devices dev r (rs.flatMap encodeSubmit) hr),
      ih hrs]
    simp

theorem step_cont_state {devices : List UsbDevice} {st st' : Option UsbDevice}
    {input rest out : List Nat}
    (h : step devices st input = StepResult.cont st' rest out) :
    st' = st ∨
      (input.take 4 = [0x01, 0x11, 0x80, 0x03] ∧
        st' = devices.find? fun d =>
          resize32 d.bus_id == (input.drop 8).take 32) := by
  unfold step at h
  cases hc : readBytes 4 input with
  | none => rw [hc] at h; dsimp only at h; exact StepResult.noConfusion h
  | some p =>
  obtain ⟨command, r0⟩ := p
  rw [hc] at h
  dsimp only at h
  obtain ⟨hcmd, hr0, hl0⟩ := readBytes_eq_some hc
  by_cases c1 : command = [0x01, 0x11, 0x80, 0x05]
  · rw [if_pos c1] at h
    cases hu : readU32 r0 with
    | none => rw [hu] at h; dsimp only at h; exact StepResult.noConfusion h
    | some p =>
      obtain ⟨v, r1⟩ := p
      rw [hu] at h
      dsimp only at h
      injection h with h1 h2 h3
      exact Or.inl h1.symm
  · rw [if_neg c1] at h
    by_cases c2 : command = [0x01, 0x11, 0x80, 0x03]
    · rw [if_pos c2] at h
      cases hu : readU32 r0 with
      | none => rw [hu] at h; dsimp only at h; exact StepResult.noConfusion h
      | some p =>
        obtain ⟨v, r1⟩ := p
        rw [hu] at h
        dsimp only at h
        cases hb : readBytes 32 r1 with
        | none => rw [hb] at h; dsimp only at h; exact StepResult.noConfusion h
        | some p =>
          obtain ⟨bus_id, r2⟩ := p
          rw [hb] at h
          dsimp only at h
          injection h with h1 h2 h3
          refine Or.inr ⟨by rw [← hcmd, c2], ?_⟩
          obtain ⟨hbid, -, -⟩ := readBytes_eq_some hb
          obtain ⟨hr1, -⟩ := readU32_eq_some hu
          rw [← h1, hbid, hr1, hr0, List.drop_drop]
    · rw [if_neg c2] at h
      by_cases c3 : command = [0x00, 0x00, 0x00, 0x01]
      · rw [if_pos c3] at h
        cases hp : parseSubmitHeader r0 with
        | none => rw [hp] at h; dsimp only at h; exact StepResult.noConfusion h
        | some p =>
          obtain ⟨⟨seq_num, dev_id, direction, ep, tf, tbl, sf, nop, itv⟩,
            su, r10⟩ := p
          rw [hp] at h
          dsimp only at h
          cases st with
          | none => exact StepResult.noConfusion h
          | some device =>
            dsimp only at h
            cases hf : device.find_ep
                ((if direction = 0 then ep else ep ||| 0x80) % 256) with
            | none =>
              rw [hf] at h; dsimp only at h; exact StepResult.noConfusion h
            | some q =>
              obtain ⟨usb_ep, intf⟩ := q
              rw [hf] at h
              dsimp only at h
              by_cases cd : direction = 0
              · rw [if_pos cd] at h
                cases hpl : readBytes tbl r10 with
                | none =>
                  rw [hpl] at h; dsimp only at h; exact StepResult.noConfusion h
                | some p =>
                  obtain ⟨payload, r11⟩ := p
                  rw [hpl] at h
                  dsimp only at h
                  injection h with h1 h2 h3
                  exact Or.inl h1.symm
              · rw [if_neg cd] at h
                injection h with h1 h2 h3
                exact Or.inl h1.symm
      · rw [if_neg c3] at h
        by_cases c4 : command = [0x00, 0x00, 0x00, 0x02]
        · rw [if_pos c4] at h
          injection h with h1 h2 h3
          exact Or.inl h1.symm
        · rw [if_neg c4] at h
          injection h with h1 h2 h3
          exact Or.inl h1.symm

/-- A URB dispatch function for concrete tests: every URB yields the empty
    response (an emulated device that never returns data). -/
def demoHandler : UsbEndpoint → Option UsbInterface → Nat → List Nat →
    List Nat → List Nat :=
  fun _ _ _ _ _ => []

/-- Concrete device with bus_id "a" and no interfaces. -/
def demoDev : UsbDevice :=
  { path := [], bus_id := [97], ep0_max_packet_size := 8, interfaces := [],
    devRecord := [], dispatch := demoHandler }

/-- Concrete interface with a single interrupt IN endpoint 0x81. -/
def demoIntf : UsbInterface :=
  { interfaceClass := 3, interfaceSubclass := 0, interfaceProtocol := 0,
    endpoints := [{ address := 0x81, attributes := 3, max_packet_size := 8,
                    interval := 10 }] }

/-- Concrete device with bus_id "a" and one interrupt IN endpoint 0x81. -/
def demoDevEp : UsbDevice :=
  { path := [], bus_id := [97], ep0_max_packet_size := 8,
    interfaces := [demoIntf], devRecord := [], dispatch := demoHandler }

/-- Concrete IN interrupt submit request to endpoint 1 with seq_num 1. -/
def demoReq1 : SubmitReq :=
  { seq_num := 1, dev_id := 2, direction := 1, ep := 1, transfer_flags := 0,
    transfer_buffer_length := 0, start_frame := 0, number_of_packets := 0,
    interval := 0, setup := [0, 0, 0, 0, 0, 0, 0, 0], payload := [] }

/-- Same request with seq_num 5. -/
def demoReq2 : SubmitReq :=
  { demoReq1 with seq_num := 5 }

theorem demoReq1_ok : ReqOk demoDevEp demoReq1 := by
  unfold ReqOk
  refine ⟨rfl, ?_, ?_, ?_, ?_, ?_, ?_, ?_, ?_, ?_, ?_, ?_⟩ <;> decide

theorem demoReq2_ok : ReqOk demoDevEp demoReq2 := by
  unfold ReqOk
  refine ⟨rfl, ?_, ?_, ?_, ?_, ?_, ?_, ?_, ?_, ?_, ?_, ?_⟩ <;> decide

/-- Claim C1 (counterexample): after an unknown 4-byte opcode the connection is not
    closed: a following OP_REQ_DEVLIST on the same connection is still
    processed and answered with the 12-byte empty device list reply, so the
    handler does process further commands after an unknown opcode. -/
theorem unknown_opcode_close_counterexample :
    run [] none [0xde, 0xad, 0xbe, 0xef,
        0x01, 0x11, 0x80, 0x05, 0x00, 0x00, 0x00, 0x00] =
      ([0x01, 0x11, 0x00, 0x05, 0, 0, 0, 0, 0, 0, 0, 0], EndKind.closed) ∧
    ([0x01, 0x11, 0x00, 0x05, 0, 0, 0, 0, 0, 0, 0, 0] : List Nat) ≠ [] := by
  constructor
  · rw [run_cont (show step [] none [0xde, 0xad, 0xbe, 0xef,
        0x01, 0x11, 0x80, 0x05, 0x00, 0x00, 0x00, 0x00] =
        StepResult.cont none [0x01, 0x11, 0x80, 0x05, 0x00, 0x00, 0x00, 0x00]
          [] from rfl)]
    rw [run_cont (show step [] none
        [0x01, 0x11, 0x80, 0x05, 0x00, 0x00, 0x00, 0x00] =
        StepResult.cont none []
          [0x01, 0x11, 0x00, 0x05, 0, 0, 0, 0, 0, 0, 0, 0] from rfl)]
    rw [run_fail (show step [] none [] = StepResult.fail [] from rfl)]
    rfl
  · decide

/-- Claim C1 (amended): a 4-byte opcode that is none of OP_REQ_DEVLIST,
    OP_REQ_IMPORT, USBIP_CMD_SUBMIT and USBIP_CMD_UNLINK is not fatal: the
    handler only logs it, consumes exactly those 4 bytes, writes nothing,
    keeps the connection state, and the rest of the connection proceeds
    exactly as if the unknown opcode had not been sent. -/
theorem unknown_opcode_skipped_connection_continues
    (devices : List UsbDevice) (st : Option UsbDevice) (cmd rest : List Nat)
    (h4 : cmd.length = 4)
    (n1 : cmd ≠ [0x01, 0x11, 0x80, 0x05]) (n2 : cmd ≠ [0x01, 0x11, 0x80, 0x03])
    (n3 : cmd ≠ [0x00, 0x00, 0x00, 0x01])
    (_n4 : cmd ≠ [0x00, 0x00, 0x00, 0x02]) :
    step devices st (cmd ++ rest) = StepResult.cont st rest [] ∧
    run devices st (cmd ++ rest) = run devices st rest := by
  have hstep := step_other devices st cmd rest h4 n1 n2 n3
  refine ⟨hstep, ?_⟩
  rw [run_cont hstep]
  simp

/-- Witness for the amended C1 at a concrete unknown opcode. -/
theorem unknown_opcode_skipped_witness :
    step [] none ([0xde, 0xad, 0xbe, 0xef] ++ []) =
      StepResult.cont none [] [] ∧
    run [] none ([0xde, 0xad, 0xbe, 0xef] ++ []) = run [] none [] :=
  unknown_opcode_skipped_connection_continues [] none [0xde, 0xad, 0xbe, 0xef]
    [] rfl (by decide) (by decide) (by decide) (by decide)

/-- Claim C2 (counterexample): current_import_device is not immutable after a
    successful OP_REQ_IMPORT: on a server with the single device demoDev
    (bus_id byte 97), a first import of bus_id 97 binds the device, and a
    second OP_REQ_IMPORT on the same connection with the unknown bus_id 98
    clears the binding back to none. -/
theorem import_rebind_counterexample :
    step [demoDev] none
        ([0x01, 0x11, 0x80, 0x03] ++ [0, 0, 0, 0] ++
          (97 :: List.replicate 31 0) ++ []) =
      StepResult.cont (some demoDev) []
        [0x01, 0x11, 0x00, 0x03, 0, 0, 0, 0] ∧
    step [demoDev] (some demoDev)
        ([0x01, 0x11, 0x80, 0x03] ++ [0, 0, 0, 0] ++
          (98 :: List.replicate 31 0) ++ []) =
      StepResult.cont none [] [0x01, 0x11, 0x00, 0x03, 0, 0, 0, 1] :=
  ⟨rfl, rfl⟩

/-- Claim C2 (amended): current_import_device starts unset, but it is reassigned by
    every OP_REQ_IMPORT rather than being immutable: each import sets it to
    the first server device whose bus_id resized to 32 bytes equals the
    received bus_id, or clears it to none on a miss, regardless of the
    previous binding; and any command iteration that continues the loop
    either leaves the reference unchanged or starts with the OP_REQ_IMPORT
    opcode and performs exactly that import selection — so commands other
    than OP_REQ_IMPORT leave the reference unchanged. -/
theorem current_import_device_reselected_on_import
    (devices : List UsbDevice) (st : Option UsbDevice)
    (s4 bus_id rest : List Nat) (h4 : s4.length = 4)
    (h32 : bus_id.length = 32) :
    (∃ out, step devices st
        ([0x01, 0x11, 0x80, 0x03] ++ s4 ++ bus_id ++ rest) =
      StepResult.cont
        (devices.find? fun d => resize32 d.bus_id == bus_id) rest out) ∧
    ∀ input st' rest2 out2,
      step devices st input = StepResult.cont st' rest2 out2 →
      st' = st ∨
        (input.take 4 = [0x01, 0x11, 0x80, 0x03] ∧
          st' = devices.find? fun d =>
            resize32 d.bus_id == (input.drop 8).take 32) := by
  constructor
  · exact ⟨_, step_import devices st s4 bus_id rest h4 h32⟩
  · intro input st' rest2 out2 h
    exact step_cont_state h

/-- Witness for the amended C2 at a concrete bound connection. -/
theorem current_import_device_reselected_witness :
    (∃ out, step [demoDev] (some demoDev)
        ([0x01, 0x11, 0x80, 0x03] ++ [0, 0, 0, 0] ++
          (98 :: List.replicate 31 0) ++ []) =
      StepResult.cont
        ([demoDev].find? fun d =>
          resize32 d.bus_id == (98 :: List.replicate 31 0)) [] out) ∧
    ∀ input st' rest2 out2,
      step [demoDev] (some demoDev) input = StepResult.cont st' rest2 out2 →
      st' = some demoDev ∨
        (input.take 4 = [0x01, 0x11, 0x80, 0x03] ∧
          st' = [demoDev].find? fun d =>
            resize32 d.bus_id == (input.drop 8).take 32) :=
  current_import_device_reselected_on_import [demoDev] (some demoDev)
    [0, 0, 0, 0] (98 :: List.replicate 31 0) [] rfl rfl

/-- Claim C3 (counterexample): a USBIP_CMD_SUBMIT addressing endpoint 1 IN on the
    imported device demoDev, which has no endpoint with address 0x81, does
    not produce a USBIP_RET_SUBMIT with a non-zero status: the find_ep
    unwrap panics and the connection task dies having written nothing. -/
theorem unknown_endpoint_counterexample :
    step [demoDev] (some demoDev)
        [0x00, 0x00, 0x00, 0x01,
         0, 0, 0, 1,  0, 0, 0, 0,  0, 0, 0, 1,  0, 0, 0, 1,
         0, 0, 0, 0,  0, 0, 0, 0,  0, 0, 0, 0,  0, 0, 0, 0,  0, 0, 0, 0,
         0, 0, 0, 0, 0, 0, 0, 0] = StepResult.crash [] := rfl

/-- Claim C3 (amended): when the looked-up endpoint address (ep with 0x80 ORed in
    for direction=1) is not present on the imported device, the handler
    panics on the find_ep unwrap: the connection ends in a crash with no
    bytes written, so no USBIP_RET_SUBMIT of any status is sent and the
    connection does not continue. -/
theorem unknown_endpoint_crashes_connection
    (devices : List UsbDevice) (dev : UsbDevice)
    (seq_num dev_id direction ep transfer_flags transfer_buffer_length
      start_frame number_of_packets interval : Nat) (setup : List Nat)
    (hs : setup.length = 8)
    (b1 : seq_num < 2 ^ 32) (b2 : dev_id < 2 ^ 32) (b3 : direction < 2 ^ 32)
    (b4 : ep < 2 ^ 32) (b5 : transfer_flags < 2 ^ 32)
    (b6 : transfer_buffer_length < 2 ^ 32) (b7 : start_frame < 2 ^ 32)
    (b8 : number_of_packets < 2 ^ 32) (b9 : interval < 2 ^ 32)
    (hfind : dev.find_ep
      ((if direction = 0 then ep else ep ||| 0x80) % 256) = none) :
    run devices (some dev)
      ([0x00, 0x00, 0x00, 0x01] ++ writeU32 seq_num ++ writeU32 dev_id ++
        writeU32 direction ++ writeU32 ep ++ writeU32 transfer_flags ++
        writeU32 transfer_buffer_length ++ writeU32 start_frame ++
        writeU32 number_of_packets ++ writeU32 interval ++ setup ++ []) =
      ([], EndKind.crashed) :=
  run_crash (step_submit_nofind devices dev seq_num dev_id direction ep
    transfer_flags transfer_buffer_length start_frame number_of_packets
    interval setup [] hs b1 b2 b3 b4 b5 b6 b7 b8 b9 hfind)

/-- Witness for the amended C3 at a concrete device without the endpoint. -/
theorem unknown_endpoint_crashes_witness :
    run [demoDev] (some demoDev)
      ([0x00, 0x00, 0x00, 0x01] ++ writeU32 1 ++ writeU32 0 ++
        writeU32 1 ++ writeU32 1 ++ writeU32 0 ++
        writeU32 0 ++ writeU32 0 ++
        writeU32 0 ++ writeU32 0 ++ [0, 0, 0, 0, 0, 0, 0, 0] ++ []) =
      ([], EndKind.crashed) :=
  unknown_endpoint_crashes_connection [demoDev] demoDev 1 0 1 1 0 0 0 0 0
    [0, 0, 0, 0, 0, 0, 0, 0] rfl (by decide) (by decide) (by decide)
    (by decide) (by decide) (by decide) (by decide) (by decide) (by decide)
    rfl

/-- Claim C4: a USBIP_CMD_SUBMIT received while no device is imported is fatal:
    whatever bytes follow the opcode the connection writes nothing at all —
    in particular no USBIP_RET_SUBMIT — and ends, either through the unwrap
    panic on the None device (complete header) or through the EOF error
    (truncated header). -/
theorem submit_unbound_fatal (devices : List UsbDevice) (rest : List Nat) :
    ∃ e, run devices none ([0x00, 0x00, 0x00, 0x01] ++ rest) = ([], e) := by
  have e1 : readBytes 4 ([0x00, 0x00, 0x00, 0x01] ++ rest) =
      some ([0x00, 0x00, 0x00, 0x01], rest) := readBytes_append rest rfl
  cases hp : parseSubmitHeader rest with
  | none =>
    refine ⟨EndKind.closed, run_fail ?_⟩
    unfold step
    rw [e1]
    dsimp only
    rw [if_neg (by decide), if_neg (by decide), if_pos rfl, hp]
  | some p =>
    obtain ⟨⟨seq_num, dev_id, direction, ep, tf, tbl, sf, nop, itv⟩,
      su, r10⟩ := p
    refine ⟨EndKind.crashed, run_crash ?_⟩
    unfold step
    rw [e1]
    dsimp only
    rw [if_neg (by decide), if_neg (by decide), if_pos rfl, hp]

/-- Claim C5 (counterexample): an input stream holding exactly 48 bytes — the
    4-byte opcode plus 44 further bytes and nothing else — is already a
    complete USBIP_CMD_SUBMIT: the handler dispatches the URB and writes the
    full reply, so it does not read 48 bytes of header after the opcode
    (that would require a 52-byte stream). -/
theorem submit_header_48_counterexample :
    step [demoDevEp] (some demoDevEp)
        [0x00, 0x00, 0x00, 0x01,
         0, 0, 0, 1,  0, 0, 0, 2,  0, 0, 0, 1,  0, 0, 0, 1,
         0, 0, 0, 0,  0, 0, 0, 0,  0, 0, 0, 0,  0, 0, 0, 0,  0, 0, 0, 0,
         0, 0, 0, 0, 0, 0, 0, 0] =
      StepResult.cont (some demoDevEp) []
        (retSubmitReply 1 2 1 1 [0, 0, 0, 0, 0, 0, 0, 0] []) := rfl

/-- Claim C5 (amended): the fixed-layout header the server reads after the 4-byte
    USBIP_CMD_SUBMIT opcode is 44 bytes — the nine big-endian u32 fields
    seq_num, dev_id, direction, ep, transfer_flags, transfer_buffer_length,
    start_frame, number_of_packets and interval plus the 8 setup bytes
    (48 bytes counting the opcode itself) — before the URB is dispatched:
    a complete submit message is 48 bytes plus the OUT payload, and
    processing it consumes exactly that, leaving the rest of the stream for
    the next command. -/
theorem submit_header_44_after_opcode (devices : List UsbDevice)
    (dev : UsbDevice) (r : SubmitReq) (rest : List Nat)
    (hok : ReqOk dev r) :
    (encodeSubmit r).length = 48 + r.payload.length ∧
    step devices (some dev) (encodeSubmit r ++ rest) =
      StepResult.cont (some dev) rest (replyFor dev r) := by
  constructor
  · simp only [encodeSubmit, List.length_append, writeU32_length,
      List.length_cons, List.length_nil, hok.1]
  · exact step_encodeSubmit devices dev r rest hok

/-- Witness for the amended C5 at a concrete request. -/
theorem submit_header_44_witness :
    (encodeSubmit demoReq1).length = 48 + demoReq1.payload.length ∧
    step [demoDevEp] (some demoDevEp) (encodeSubmit demoReq1 ++ []) =
      StepResult.cont (some demoDevEp) [] (replyFor demoDevEp demoReq1) :=
  submit_header_44_after_opcode [demoDevEp] demoDevEp demoReq1 [] demoReq1_ok

/-- Claim C6: OP_REQ_IMPORT replies with the big-endian word 0x01110003 followed by
    a status word; the device record is present iff the status is 0, which is
    the case iff some server device's bus_id resized (zero-padded) to 32
    bytes equals the received 32-byte bus_id; on a miss the status word is 1
    and no body follows; in both cases the loop continues, so the connection
    remains open for further commands. -/
theorem import_reply_status_and_record
    (devices : List UsbDevice) (st : Option UsbDevice)
    (s4 bus_id rest : List Nat) (h4 : s4.length = 4)
    (h32 : bus_id.length = 32) :
    step devices st ([0x01, 0x11, 0x80, 0x03] ++ s4 ++ bus_id ++ rest) =
      StepResult.cont (devices.find? fun d => resize32 d.bus_id == bus_id)
        rest
        (writeU32 0x01110003 ++
          match devices.find? fun d => resize32 d.bus_id == bus_id with
          | some dev => writeU32 0 ++ dev.write_dev
          | none => writeU32 1) ∧
    ((devices.find? fun d => resize32 d.bus_id == bus_id).isSome ↔
      ∃ d ∈ devices, resize32 d.bus_id = bus_id) := by
  refine ⟨step_import devices st s4 bus_id rest h4 h32, ?_⟩
  simp only [List.find?_isSome, beq_iff_eq]

/-- Witness for C6 on a one-device server with a matching bus_id. -/
theorem import_reply_status_and_record_witness :
    step [demoDev] none ([0x01, 0x11, 0x80, 0x03] ++ [0, 0, 0, 0] ++
        (97 :: List.replicate 31 0) ++ []) =
      StepResult.cont
        ([demoDev].find? fun d =>
          resize32 d.bus_id == (97 :: List.replicate 31 0)) []
        (writeU32 0x01110003 ++
          match [demoDev].find? fun d =>
              resize32 d.bus_id == (97 :: List.replicate 31 0) with
          | some dev => writeU32 0 ++ dev.write_dev
          | none => writeU32 1) ∧
    (([demoDev].find? fun d =>
        resize32 d.bus_id == (97 :: List.replicate 31 0)).isSome ↔
      ∃ d ∈ [demoDev], resize32 d.bus_id = (97 :: List.replicate 31 0)) :=
  import_reply_status_and_record [demoDev] none [0, 0, 0, 0]
    (97 :: List.replicate 31 0) [] rfl rfl

/-- Claim C7: every dispatched USBIP_CMD_SUBMIT that produces a reply produces it
    with the exact USBIP_RET_SUBMIT layout: command word 0x00000003, the
    request's seq_num, dev_id, direction and ep echoed, status 0,
    actual_length equal to the byte length of the handler's response,
    start_frame 0, number_of_packets 0, error_count 0, the 8 echoed setup
    bytes, and then exactly the response bytes. -/
theorem ret_submit_layout (devices : List UsbDevice) (dev : UsbDevice)
    (r : SubmitReq) (rest : List Nat) (hok : ReqOk dev r) :
    ∃ out, step devices (some dev) (encodeSubmit r ++ rest) =
        StepResult.cont (some dev) rest out ∧
      out.length = 48 + (respFor dev r).length ∧
      out.take 4 = writeU32 0x3 ∧
      (out.drop 4).take 4 = writeU32 r.seq_num ∧
      (out.drop 8).take 4 = writeU32 r.dev_id ∧
      (out.drop 12).take 4 = writeU32 r.direction ∧
      (out.drop 16).take 4 = writeU32 r.ep ∧
      (out.drop 20).take 4 = writeU32 0 ∧
      (out.drop 24).take 4 = writeU32 (respFor dev r).length ∧
      (out.drop 28).take 4 = writeU32 0 ∧
      (out.drop 32).take 4 = writeU32 0 ∧
      (out.drop 36).take 4 = writeU32 0 ∧
      (out.drop 40).take 8 = r.setup ∧
      out.drop 48 = respFor dev r := by
  refine ⟨replyFor dev r, step_encodeSubmit devices dev r rest hok, ?_⟩
  exact retSubmitReply_parts r.seq_num r.dev_id r.direction r.ep r.setup
    (respFor dev r) hok.1

/-- Witness for C7 at a concrete request. -/
theorem ret_submit_layout_witness :
    ∃ out, step [demoDevEp] (some demoDevEp)
        (encodeSubmit demoReq1 ++ []) =
        StepResult.cont (some demoDevEp) [] out ∧
      out.length = 48 + (respFor demoDevEp demoReq1).length ∧
      out.take 4 = writeU32 0x3 ∧
      (out.drop 4).take 4 = writeU32 demoReq1.seq_num ∧
      (out.drop 8).take 4 = writeU32 demoReq1.dev_id ∧
      (out.drop 12).take 4 = writeU32 demoReq1.direction ∧
      (out.drop 16).take 4 = writeU32 demoReq1.ep ∧
      (out.drop 20).take 4 = writeU32 0 ∧
      (out.drop 24).take 4 = writeU32 (respFor demoDevEp demoReq1).length ∧
      (out.drop 28).take 4 = writeU32 0 ∧
      (out.drop 32).take 4 = writeU32 0 ∧
      (out.drop 36).take 4 = writeU32 0 ∧
      (out.drop 40).take 8 = demoReq1.setup ∧
      out.drop 48 = respFor demoDevEp demoReq1 :=
  ret_submit_layout [demoDevEp] demoDevEp demoReq1 [] demoReq1_ok

/-- Claim C8: a connection processes submits strictly sequentially — each reply is
    produced before the next command is read — so running any sequence of
    well-formed submits on a bound connection writes exactly the
    concatenation of the per-request USBIP_RET_SUBMIT replies in request
    order, and the sequence of seq_num values decoded from the replies
    equals, in order (hence also as a multiset), the sequence of request
    seq_num values. -/
theorem submit_sequence_preserved (devices : List UsbDevice)
    (dev : UsbDevice) (reqs : List SubmitReq)
    (hok : ∀ r ∈ reqs, ReqOk dev r) :
    run devices (some dev) (reqs.flatMap encodeSubmit) =
      ((reqs.map (replyFor dev)).flatten, EndKind.closed) ∧
    (reqs.map (replyFor dev)).map (fun out => be32 ((out.drop 4).take 4)) =
      reqs.map (fun r => r.seq_num) := by
  refine ⟨run_submits devices dev reqs hok, ?_⟩
  revert hok
  induction reqs with
  | nil => intro hok; rfl
  | cons r rs ih =>
    intro hok
    have hseq : r.seq_num < 2 ^ 32 := (hok r (by simp)).2.1
    have e : ((replyFor dev r).drop 4).take 4 = writeU32 r.seq_num := rfl
    simp only [List.map_cons]
    rw [e, be32_writeU32, Nat.mod_eq_of_lt hseq,
      ih (fun x hx => hok x (by simp [hx]))]

/-- Witness for C8: two submits with seq_num 1 and 5. -/
theorem submit_sequence_preserved_witness :
    run [demoDevEp] (some demoDevEp)
        ([demoReq1, demoReq2].flatMap encodeSubmit) =
      (([demoReq1, demoReq2].map (replyFor demoDevEp)).flatten,
        EndKind.closed) ∧
    ([demoReq1, demoReq2].map (replyFor demoDevEp)).map
        (fun out => be32 ((out.drop 4).take 4)) =
      [demoReq1, demoReq2].map (fun r => r.seq_num) :=
  submit_sequence_preserved [demoDevEp] demoDevEp [demoReq1, demoReq2]
    (by
      intro r hr
      rcases List.mem_cons.mp hr with h | hr2
      · subst h; exact demoReq1_ok
      · rcases List.mem_cons.mp hr2 with h | h
        · subst h; exact demoReq2_ok
        · exact absurd h (List.not_mem_nil r))

/-- Claim C9 (counterexample): on an empty server, the 8 bytes 01 01 80 05
    00 00 00 00 are not answered with the 12-byte OP_REP_DEVLIST: the first
    word is not the OP_REQ_DEVLIST opcode the handler matches
    (01 11 80 05), so the handler logs two unknown commands, writes nothing
    at all, and the connection ends at EOF. -/
theorem devlist_wrong_opcode_counterexample :
    run [] none [0x01, 0x01, 0x80, 0x05, 0x00, 0x00, 0x00, 0x00] =
      ([], EndKind.closed) ∧
    (([] : List Nat) ≠
      [0x01, 0x11, 0x00, 0x05, 0, 0, 0, 0, 0, 0, 0, 0]) := by
  constructor
  · rw [run_cont (show step [] none
        [0x01, 0x01, 0x80, 0x05, 0x00, 0x00, 0x00, 0x00] =
        StepResult.cont none [0x00, 0x00, 0x00, 0x00] [] from rfl)]
    rw [run_cont (show step [] none [0x00, 0x00, 0x00, 0x00] =
        StepResult.cont none [] [] from rfl)]
    rw [run_fail (show step [] none [] = StepResult.fail [] from rfl)]
    rfl
  · decide

/-- Claim C9 (amended): when the server's device list is empty and a connection
    sends the OP_REQ_DEVLIST bytes 01 11 80 05 followed by a 4-byte status,
    the server writes exactly the 12 bytes 01 11 00 05 00 00 00 00
    00 00 00 00 (version word 0x01110005, status 0, n_devices 0) and the
    loop continues with the connection open. -/
theorem devlist_empty_server_reply (s4 rest : List Nat)
    (h4 : s4.length = 4) :
    step [] none ([0x01, 0x11, 0x80, 0x05] ++ s4 ++ rest) =
      StepResult.cont none rest
        [0x01, 0x11, 0x00, 0x05, 0, 0, 0, 0, 0, 0, 0, 0] := by
  rw [step_devlist [] none s4 rest h4]
  rfl

/-- Witness for the amended C9 at a concrete status word. -/
theorem devlist_empty_server_reply_witness :
    step [] none ([0x01, 0x11, 0x80, 0x05] ++ [0, 0, 0, 0] ++ []) =
      StepResult.cont none []
        [0x01, 0x11, 0x00, 0x05, 0, 0, 0, 0, 0, 0, 0, 0] :=
  devlist_empty_server_reply [0, 0, 0, 0] [] rfl

/-- Claim C10: the host pass-through handler is total: for every interface,
    endpoint, setup packet and request payload it returns Ok and never an
    error; every OUT transfer (control, interrupt or bulk), every transfer
    whose attributes match none of the three supported kinds, and every
    transfer whose host read fails yields the empty response; and every IN
    transfer yields at most the 1024 bytes of the read buffer (rusb reports
    at most the buffer's size, stated as the bound hypotheses). -/
theorem host_handle_urb_total (handle : DeviceHandle) (intf : UsbInterface)
    (ep : UsbEndpoint) (setup : SetupPacket) (req : List Nat)
    (hc : ∀ s d, handle.read_control s = some d → d.length ≤ 1024)
    (hi : ∀ a d, handle.read_interrupt a = some d → d.length ≤ 1024)
    (hb : ∀ a d, handle.read_bulk a = some d → d.length ≤ 1024) :
    ∃ resp, UsbHostHandler.handle_urb handle intf ep setup req =
        Except.ok resp ∧
      resp.length ≤ 1024 ∧
      (ep.direction = Direction.Out → resp = []) ∧
      (ep.attributes ≠ EndpointAttributes.Control →
        ep.attributes ≠ EndpointAttributes.Interrupt →
        ep.attributes ≠ EndpointAttributes.Bulk → resp = []) ∧
      (ep.attributes = EndpointAttributes.Control →
        handle.read_control setup = none → resp = []) ∧
      (ep.attributes = EndpointAttributes.Interrupt →
        handle.read_interrupt ep.address = none → resp = []) ∧
      (ep.attributes = EndpointAttributes.Bulk →
        handle.read_bulk ep.address = none → resp = []) := by
  unfold UsbHostHandler.handle_urb
  by_cases h1 : ep.attributes = EndpointAttributes.Control
  · rw [if_pos h1]
    cases hD : ep.direction with
    | In =>
      cases hr : handle.read_control setup with
      | none =>
        refine ⟨[], rfl, by decide, ?_, ?_, ?_, ?_, ?_⟩ <;>
          intros <;> rfl
      | some data =>
        refine ⟨data, rfl, hc setup data hr, ?_, ?_, ?_, ?_, ?_⟩
        · intro hOut; exact absurd hOut (by decide)
        · intro hn _ _; exact absurd h1 hn
        · intro _ hnone; exact absurd hnone (by simp)
        · intro h2 _; exact absurd (h1.symm.trans h2) (by decide)
        · intro h2 _; exact absurd (h1.symm.trans h2) (by decide)
    | Out =>
      refine ⟨[], rfl, by decide, ?_, ?_, ?_, ?_, ?_⟩ <;> intros <;> rfl
  · rw [if_neg h1]
    by_cases h2 : ep.attributes = EndpointAttributes.Interrupt
    · rw [if_pos h2]
      cases hD : ep.direction with
      | In =>
        cases hr : handle.read_interrupt ep.address with
        | none =>
          refine ⟨[], rfl, by decide, ?_, ?_, ?_, ?_, ?_⟩ <;>
            intros <;> rfl
        | some data =>
          refine ⟨data, rfl, hi ep.address data hr, ?_, ?_, ?_, ?_, ?_⟩
          · intro hOut; exact absurd hOut (by decide)
          · intro _ hn _; exact absurd h2 hn
          · intro h3 _; exact absurd (h2.symm.trans h3) (by decide)
          · intro _ hnone; exact absurd hnone (by simp)
          · intro h3 _; exact absurd (h2.symm.trans h3) (by decide)
      | Out =>
        refine ⟨[], rfl, by decide, ?_, ?_, ?_, ?_, ?_⟩ <;> intros <;> rfl
    · rw [if_neg h2]
      by_cases h3 : ep.attributes = EndpointAttributes.Bulk
      · rw [if_pos h3]
        cases hD : ep.direction with
        | In =>
          cases hr : handle.read_bulk ep.address with
          | none =>
            refine ⟨[], rfl, by decide, ?_, ?_, ?_, ?_, ?_⟩ <;>
              intros <;> rfl
          | some data =>
            refine ⟨data, rfl, hb ep.address data hr,
              ?_, ?_, ?_, ?_, ?_⟩
            · intro hOut; exact absurd hOut (by decide)
            · intro _ _ hn; exact absurd h3 hn
            · intro h4 _; exact absurd (h3.symm.trans h4) (by decide)
            · intro h4 _; exact absurd (h3.symm.trans h4) (by decide)
            · intro _ hnone; exact absurd hnone (by simp)
        | Out =>
          refine ⟨[], rfl, by decide, ?_, ?_, ?_, ?_, ?_⟩ <;> intros <;> rfl
      · rw [if_neg h3]
        refine ⟨[], rfl, by decide, ?_, ?_, ?_, ?_, ?_⟩ <;> intros <;> rfl

/-- A host device handle whose reads all fail and whose writes all succeed,
    for the concrete C10 witness. -/
def demoHandle : DeviceHandle :=
  { read_control := fun _ => none, write_control := fun _ _ => true,
    read_interrupt := fun _ => none, write_interrupt := fun _ _ => true,
    read_bulk := fun _ => none, write_bulk := fun _ _ => true }

/-- Witness for C10 at a concrete handle, endpoint and setup packet. -/
theorem host_handle_urb_total_witness :
    ∃ resp, UsbHostHandler.handle_urb demoHandle demoIntf
        { address := 0x81, attributes := 3, max_packet_size := 8,
          interval := 10 }
        { request_type := 0, request := 0, value := 0, index := 0,
          length := 0 } [] = Except.ok resp ∧
      resp.length ≤ 1024 ∧
      (UsbEndpoint.direction
          { address := 0x81, attributes := 3, max_packet_size := 8,
            interval := 10 } = Direction.Out → resp = []) ∧
      ((3 : Nat) ≠ EndpointAttributes.Control →
        (3 : Nat) ≠ EndpointAttributes.Interrupt →
        (3 : Nat) ≠ EndpointAttributes.Bulk → resp = []) ∧
      ((3 : Nat) = EndpointAttributes.Control →
        demoHandle.read_control
          { request_type := 0, request := 0, value := 0, index := 0,
            length := 0 } = none → resp = []) ∧
      ((3 : Nat) = EndpointAttributes.Interrupt →
        demoHandle.read_interrupt 0x81 = none → resp = []) ∧
      ((3 : Nat) = EndpointAttributes.Bulk →
        demoHandle.read_bulk 0x81 = none → resp = []) :=
  host_handle_urb_total demoHandle demoIntf
    { address := 0x81, attributes := 3, max_packet_size := 8, interval := 10 }
    { request_type := 0, request := 0, value := 0, index := 0, length := 0 }
    []
    (fun s d h => absurd h (by simp [demoHandle]))
    (fun a d h => absurd h (by simp [demoHandle]))
    (fun a d h => absurd h (by simp [demoHandle]))

end UsbIp
